import Mathlib

/-!
Shallow embedding of the rv8 16550 UART MMIO device
(`src/emu/device-uart.h`): the `console_thread` input queue primitives
(`has_char`, `read_char`) and the `uart_mmio_device` register bank
(`load_8`, `store_8`, `service`).

Bytes are modelled as `Nat` (all register writes in the source either
store the byte raw or mask it, so no wrap-around arithmetic occurs).
The console thread's shared byte queue is modelled as a `List Nat` in
FIFO order (head = oldest).  `load_8`'s `u8 &val` in-out parameter is
modelled by passing the incoming value `vin` and returning the outgoing
value: the source's `default:` branch under DLAB leaves `val` untouched,
which the embedding renders as returning `vin`.
-/

namespace Uart

/-- `IER_ERBDA = 0x01`: enable received-buffer-data-available interrupt. -/
def IER_ERBDA : Nat := 0x01

/-- `IER_MASK = 0x0f`: interrupt enable mask. -/
def IER_MASK : Nat := 0x0f

/-- `IIR_TX_RDY = 0x02`: transmit ready. -/
def IIR_TX_RDY : Nat := 0x02

/-- `IIR_RX_RDY = 0x04`: receive ready. -/
def IIR_RX_RDY : Nat := 0x04

/-- `IIR_RD_LSR = 0x06`: read line status. -/
def IIR_RD_LSR : Nat := 0x06

/-- `LCR_DLAB = 0x80`: divisor latch access bit. -/
def LCR_DLAB : Nat := 0x80

/-- `LSR_DA = 0x01`: data available. -/
def LSR_DA : Nat := 0x01

/-- `LSR_RE = 0x20`: THR is empty. -/
def LSR_RE : Nat := 0x20

/-- `MSR_DSR = 0x20`: data set ready. -/
def MSR_DSR : Nat := 0x20

/-- `MSR_DCD = 0x80`: data carrier detect. -/
def MSR_DCD : Nat := 0x80

/-- The `com` register struct of `uart_mmio_device`, zero-initialised as by
the constructor's `com{0}`. -/
structure ComRegs where
  rbr : Nat := 0
  thr : Nat := 0
  ier : Nat := 0
  iir : Nat := 0
  fcr : Nat := 0
  lcr : Nat := 0
  mcr : Nat := 0
  lsr : Nat := 0
  msr : Nat := 0
  scr : Nat := 0
  dll : Nat := 0
  dlm : Nat := 0
deriving DecidableEq, Repr

/-- Device state: the register bank plus the console thread's input byte
queue (head = oldest byte) and, for the transmit path, the sequence of
bytes handed to `console->write_char` (oldest first). -/
structure UartState where
  com : ComRegs := {}
  queue : List Nat := []
  outbox : List Nat := []
deriving DecidableEq, Repr

/-- Freshly constructed device: `com{0}` and an empty input queue. -/
def initState : UartState := {}

/-- `console_thread::has_char`: `queue.size() > 0`. -/
def has_char (s : UartState) : Bool := s.queue.length > 0

/-- `console_thread::read_char`:
`queue.size() > 0 ? queue.pop_front() : 0`, returning the byte read and
the remaining queue. -/
def read_char (q : List Nat) : Nat × List Nat :=
  match q with
  | [] => (0, [])
  | c :: rest => (c, rest)

/-- `uart_mmio_device::load_8`.  The source dispatches on `com.lcr &
LCR_DLAB` first; under DLAB only indices 0/1 (DLL/DLM) are handled and
the `default:` branch leaves the in-out `val` unmodified (returned here
as `vin`).  Without DLAB, the `case REG_IER:` arm assigns
`val = com.ier` and then — with no `break` — falls through into the
`case REG_IIR:` arm, which overwrites `val`; the embedding keeps only
the surviving assignment. -/
def load_8 (s : UartState) (va vin : Nat) : UartState × Nat :=
  if s.com.lcr &&& LCR_DLAB ≠ 0 then
    if va = 0 then (s, s.com.dll)
    else if va = 1 then (s, s.com.dlm)
    else (s, vin)
  else
    if va = 0 then
      if has_char s then
        ({ s with com := { s.com with rbr := (read_char s.queue).1 },
                  queue := (read_char s.queue).2 },
         (read_char s.queue).1)
      else (s, s.com.rbr)
    else if va = 1 then
      (s, if has_char s then IIR_RD_LSR else IIR_TX_RDY)
    else if va = 2 then
      (s, if has_char s then IIR_RD_LSR else IIR_TX_RDY)
    else if va = 3 then (s, s.com.lcr)
    else if va = 4 then (s, s.com.mcr)
    else if va = 5 then (s, LSR_RE ||| (if has_char s then LSR_DA else 0))
    else if va = 6 then (s, MSR_DCD ||| MSR_DSR)
    else if va = 7 then (s, s.com.scr)
    else (s, 0)

/-- `uart_mmio_device::store_8`.  Under DLAB only indices 0/1 (DLL/DLM)
are handled; all other stores fall to `default:` and are dropped.
Without DLAB, index 0 stores THR and forwards the byte to
`console->write_char` (modelled by appending to `outbox`), index 1
stores `val & IER_MASK`, indices 2/5/6 ignore the write, and 3/4/7
store raw. -/
def store_8 (s : UartState) (va val : Nat) : UartState :=
  if s.com.lcr &&& LCR_DLAB ≠ 0 then
    if va = 0 then { s with com := { s.com with dll := val } }
    else if va = 1 then { s with com := { s.com with dlm := val } }
    else s
  else
    if va = 0 then
      { s with com := { s.com with thr := val }, outbox := s.outbox ++ [val] }
    else if va = 1 then { s with com := { s.com with ier := val &&& IER_MASK } }
    else if va = 2 then s
    else if va = 3 then { s with com := { s.com with lcr := val } }
    else if va = 4 then { s with com := { s.com with mcr := val } }
    else if va = 5 then s
    else if va = 6 then s
    else if va = 7 then { s with com := { s.com with scr := val } }
    else s

/-- `uart_mmio_device::service`: calls `plic->signal_irq(irq)` iff
`(com.ier & IER_ERBDA) && console->has_char()`.  The boolean component
records whether `signal_irq` is invoked; the device state is returned
unchanged (the source's `service` touches no register or queue state). -/
def service (s : UartState) : UartState × Bool :=
  (s, ((s.com.ier &&& IER_ERBDA) != 0) && has_char s)

/-- Reachable device states: the freshly constructed device, closed under
guest loads and stores, `service` calls, and the console thread
appending one host-input byte to the queue (`queue.push_back(c)`). -/
inductive Reach : UartState → Prop where
  | init : Reach initState
  | load (s : UartState) (va vin : Nat) : Reach s → Reach (load_8 s va vin).1
  | store (s : UartState) (va val : Nat) : Reach s → Reach (store_8 s va val)
  | svc (s : UartState) : Reach s → Reach (service s).1
  | poll (s : UartState) (c : Nat) : Reach s →
      Reach { s with queue := s.queue ++ [c] }

/-- `load_8` never modifies the stored IER (only the RBR/queue fields can
change on a load). -/
lemma load_8_ier_eq (s : UartState) (va vin : Nat) :
    (load_8 s va vin).1.com.ier = s.com.ier := by
  simp only [load_8]
  split_ifs <;> rfl

/-- `store_8` either leaves the stored IER unchanged or replaces it by
`val & IER_MASK` (the non-DLAB index-1 arm). -/
lemma store_8_ier (s : UartState) (va val : Nat) :
    (store_8 s va val).com.ier = s.com.ier ∨
    (store_8 s va val).com.ier = val &&& IER_MASK := by
  simp only [store_8]
  split_ifs <;> first | exact Or.inl rfl | exact Or.inr rfl

/-- In every reachable state the upper four bits of the stored IER are
zero: the constructor zeroes it and the only write path masks with
`IER_MASK = 0x0f`. -/
lemma reach_ier_high_bits (s : UartState) (h : Reach s) :
    s.com.ier &&& 0xf0 = 0 := by
  induction h with
  | init => rfl
  | load s' va vin _ ih => rw [load_8_ier_eq]; exact ih
  | store s' va val _ ih =>
      rcases store_8_ier s' va val with he | he
      · rw [he]; exact ih
      · rw [he, Nat.and_assoc]
        have h15 : (0x0f : Nat) &&& 0xf0 = 0 := by decide
        rw [IER_MASK, h15, Nat.and_zero]
  | svc s' _ ih => exact ih
  | poll s' c _ ih => exact ih

/-- C1: the spec says a non-DLAB load of address 1 returns the stored
IER; in the source the `case REG_IER:` arm lacks a `break` and falls
through into the IIR arm, so the load returns the IIR value instead.
At ier = 0x0f with an empty input queue the load returns `IIR_TX_RDY`
(0x02), not 0x0f. -/
theorem load_ier_fallthrough_bug :
    (load_8 { com := { ier := 0x0f } } 1 0).2 = IIR_TX_RDY ∧
    (load_8 { com := { ier := 0x0f } } 1 0).2 ≠ 0x0f := by decide

/-- C2 counterexample: with one byte buffered, a non-DLAB load of
address 2 returns 0x06 (`IIR_RD_LSR`), not `IIR_RX_RDY` (0x04) as the
claim states. -/
theorem iir_load_rx_ready_cex :
    (load_8 { queue := [65] } 2 0).2 ≠ IIR_RX_RDY ∧
    (load_8 { queue := [65] } 2 0).2 = IIR_RD_LSR := by decide

/-- C2 (amended): with DLAB clear, a load of address 2 returns
`IIR_RD_LSR` (0x06) when the bridge has buffered input and `IIR_TX_RDY`
(0x02) otherwise. -/
theorem iir_load_value (s : UartState) (vin : Nat)
    (h : s.com.lcr &&& LCR_DLAB = 0) :
    (load_8 s 2 vin).2 = if has_char s then IIR_RD_LSR else IIR_TX_RDY := by
  simp [load_8, h]

/-- C2 witness: the amended IIR load contract at a concrete state. -/
theorem iir_load_value_witness :
    ({ queue := [65] } : UartState).com.lcr &&& LCR_DLAB = 0 ∧
    (load_8 { queue := [65] } 2 0).2 =
      if has_char { queue := [65] } then IIR_RD_LSR else IIR_TX_RDY :=
  ⟨by decide, iir_load_value { queue := [65] } 0 (by decide)⟩

/-- C3: with DLAB set, the source handles only indices 0/1 and drops
everything else: a store to address 3 (LCR) is ignored and a load of
address 5 (LSR) leaves the in-out `val` untouched, while with DLAB
clear the same accesses hit LCR/LSR — so indices 2..7 ARE affected by
DLAB, contrary to the claim. -/
theorem dlab_affects_high_indices_bug :
    store_8 { com := { lcr := 0x83 } } 3 0x03 = { com := { lcr := 0x83 } } ∧
    (store_8 { com := { lcr := 0x03 } } 3 0x13).com.lcr = 0x13 ∧
    (load_8 { com := { lcr := 0x83 } } 5 0xee).2 = 0xee ∧
    (load_8 { com := { lcr := 0x03 } } 5 0xee).2 = LSR_RE := by decide

/-- C4: `service` leaves the device state unchanged and reports an
interrupt signal exactly when the stored IER has the `IER_ERBDA` bit
set and the input queue is non-empty. -/
theorem service_signal_iff (s : UartState) :
    (service s).1 = s ∧
    ((service s).2 = true ↔
      (s.com.ier &&& IER_ERBDA ≠ 0 ∧ s.queue ≠ [])) := by
  refine ⟨rfl, ?_⟩
  simp [service, has_char, bne_iff_ne, List.length_pos]

/-- C5: starting from the fresh device, the guest sets DLAB
(LCR := 0x83) and writes the divisor (DLL := 0xaa, DLM := 0x55) without
disturbing THR/IER/RBR — but the subsequent LCR := 0x03 write meant to
clear DLAB is dropped (index 3 is unhandled under DLAB), so LCR stays
0x83 and a load of address 0 still returns DLL instead of RBR. -/
theorem dlab_unclearable_bug :
    (store_8 (store_8 (store_8 initState 3 0x83) 0 0xaa) 1 0x55).com.dll
        = 0xaa ∧
    (store_8 (store_8 (store_8 initState 3 0x83) 0 0xaa) 1 0x55).com.dlm
        = 0x55 ∧
    (store_8 (store_8 (store_8 initState 3 0x83) 0 0xaa) 1 0x55).com.rbr
        = 0 ∧
    (store_8 (store_8 (store_8 initState 3 0x83) 0 0xaa) 1 0x55).com.thr
        = 0 ∧
    (store_8 (store_8 (store_8 initState 3 0x83) 0 0xaa) 1 0x55).com.ier
        = 0 ∧
    (store_8 (store_8 (store_8 (store_8 initState 3 0x83) 0 0xaa) 1 0x55)
        3 0x03).com.lcr = 0x83 ∧
    (load_8 (store_8 (store_8 (store_8 (store_8 initState 3 0x83) 0 0xaa)
        1 0x55) 3 0x03) 0 0).2 = 0xaa := by decide

/-- C6: with DLAB clear, a load of address 0 pops the oldest queued byte
into RBR and returns it; with an empty queue it returns the cached RBR
and leaves the state unchanged. -/
theorem rbr_load_pops_oldest (s : UartState) (vin : Nat)
    (h : s.com.lcr &&& LCR_DLAB = 0) :
    (s.queue = [] → load_8 s 0 vin = (s, s.com.rbr)) ∧
    (∀ c rest, s.queue = c :: rest →
      load_8 s 0 vin =
        ({ s with com := { s.com with rbr := c }, queue := rest }, c)) := by
  constructor
  · intro hq
    simp [load_8, h, has_char, hq]
  · intro c rest hq
    simp [load_8, h, has_char, hq, read_char]

/-- C6 witness: popping the oldest byte at a concrete state. -/
theorem rbr_load_pops_oldest_witness :
    ({ com := { rbr := 9 }, queue := [65, 66] } : UartState).com.lcr
      &&& LCR_DLAB = 0 ∧
    load_8 { com := { rbr := 9 }, queue := [65, 66] } 0 0 =
      ({ com := { rbr := 65 }, queue := [66] }, 65) := by
  refine ⟨by decide, ?_⟩
  have h := (rbr_load_pops_oldest { com := { rbr := 9 }, queue := [65, 66] }
    0 (by decide)).2 65 [66] rfl
  simpa using h

/-- C7: with DLAB clear, a load of address 5 always has the THR-empty
bit (`LSR_RE`) set, and has the data-available bit (`LSR_DA`) set iff
the input queue is non-empty. -/
theorem lsr_load_bits (s : UartState) (vin : Nat)
    (h : s.com.lcr &&& LCR_DLAB = 0) :
    ((load_8 s 5 vin).2 &&& LSR_RE ≠ 0) ∧
    ((load_8 s 5 vin).2 &&& LSR_DA ≠ 0 ↔ s.queue ≠ []) := by
  by_cases hq : s.queue = []
  · simp [load_8, h, has_char, hq]
    decide
  · have hc : has_char s = true := by
      simp [has_char, List.length_pos, hq]
    simp [load_8, h, hc, hq]
    decide

/-- C7 witness: LSR bits at a concrete state with buffered input. -/
theorem lsr_load_bits_witness :
    ({ queue := [65] } : UartState).com.lcr &&& LCR_DLAB = 0 ∧
    ((load_8 { queue := [65] } 5 0).2 &&& LSR_RE ≠ 0 ∧
     ((load_8 { queue := [65] } 5 0).2 &&& LSR_DA ≠ 0 ↔
       ({ queue := [65] } : UartState).queue ≠ [])) :=
  ⟨by decide, lsr_load_bits { queue := [65] } 0 (by decide)⟩

/-- C8: `read_char` is a total function: on an empty queue it returns
the sentinel 0 and leaves the queue empty; on a non-empty queue it
removes and returns the oldest byte. -/
theorem read_char_fifo (q : List Nat) :
    (q = [] → read_char q = (0, [])) ∧
    (∀ c rest, q = c :: rest → read_char q = (c, rest)) := by
  constructor
  · intro h; subst h; rfl
  · intro c rest h; subst h; rfl

/-- C8 witness: `read_char` on a concrete non-empty and empty queue. -/
theorem read_char_fifo_witness :
    read_char [7, 8] = (7, [8]) ∧ read_char ([] : List Nat) = (0, []) :=
  ⟨(read_char_fifo [7, 8]).2 7 [8] rfl, (read_char_fifo []).1 rfl⟩

/-- C9: with DLAB clear, a store to address 1 sets IER to the value
masked with `IER_MASK` (0x0f), and in every reachable state the upper
four bits of the stored IER are zero. -/
theorem ier_store_masked :
    (∀ (s : UartState) (v : Nat), s.com.lcr &&& LCR_DLAB = 0 →
      store_8 s 1 v =
        { s with com := { s.com with ier := v &&& IER_MASK } }) ∧
    (∀ s : UartState, Reach s → s.com.ier &&& 0xf0 = 0) := by
  constructor
  · intro s v h
    simp [store_8, h]
  · exact reach_ier_high_bits

/-- C9 witness: the masked IER store at a concrete state, and the
invariant at the initial state. -/
theorem ier_store_masked_witness :
    store_8 initState 1 0xff =
      { initState with
        com := { initState.com with ier := 0xff &&& IER_MASK } } ∧
    initState.com.ier &&& 0xf0 = 0 :=
  ⟨ier_store_masked.1 initState 0xff (by decide),
   ier_store_masked.2 initState Reach.init⟩

/-- C10: because of the missing `break`, with DLAB clear a load of
address 1 returns exactly the same value as a load of address 2, and
that value does not depend on the stored IER. -/
theorem ier_iir_load_alias (s : UartState) (vin vin2 x : Nat)
    (h : s.com.lcr &&& LCR_DLAB = 0) :
    (load_8 s 1 vin).2 = (load_8 s 2 vin2).2 ∧
    (load_8 { s with com := { s.com with ier := x } } 1 vin).2 =
      (load_8 s 1 vin).2 := by
  constructor <;> simp [load_8, h, has_char]

/-- C10 witness: the IER/IIR load alias at a concrete state. -/
theorem ier_iir_load_alias_witness :
    ({ com := { ier := 0x0f } } : UartState).com.lcr &&& LCR_DLAB = 0 ∧
    ((load_8 { com := { ier := 0x0f } } 1 0).2 =
       (load_8 { com := { ier := 0x0f } } 2 0).2 ∧
     (load_8 { ({ com := { ier := 0x0f } } : UartState) with
         com := { ({ com := { ier := 0x0f } } : UartState).com with
                    ier := 5 } } 1 0).2 =
       (load_8 { com := { ier := 0x0f } } 1 0).2) :=
  ⟨by decide, ier_iir_load_alias { com := { ier := 0x0f } } 0 0 5 (by decide)⟩

end Uart
